import Mathlib

/-!
Verification of the building/ProEvent reconciliation backend.

Shallow embedding of the backend's Python sources:
  * `backend/services/proserver_service.py` — live arm-state classification,
    bulk reactive-state update, TCP AXE notifier;
  * `backend/services/proevent_service.py` — the reconciliation algorithm
    (`apply_proevent_states_for_building`), the scheduled-time check and
    immediate re-evaluation (`reevaluate_building_state`);
  * `backend/routes.py` — the public HTTP handlers;
  * `backend/admin_routes.py` — the admin user-management handlers.

Effectful reads (database rows, sqlite lookups, the wall clock) become
explicit parameters; fallible raw operations are passed in as
`Except String _` values describing what the underlying call would do, and
the wrappers reproduce the source's own try/except behaviour on top of them.
-/

namespace AmazonDvc

/-! ## Python string semantics helpers -/

/-- Characters Python's `str.strip()` removes (ASCII whitespace). -/
def isSpaceChar (c : Char) : Bool :=
  c == ' ' || c == '\t' || c == '\n' || c == '\r' || c == '\x0b' || c == '\x0c'

/-- Strip leading and trailing whitespace from a character list. -/
def stripChars (l : List Char) : List Char :=
  ((l.dropWhile isSpaceChar).reverse.dropWhile isSpaceChar).reverse

/-- Python `s.strip()`. -/
def pyStrip (s : String) : String :=
  String.mk (stripChars s.data)

/-- Does `haystack` start with `needle` (character lists)? -/
def strLeadsWith : List Char → List Char → Bool
  | [], _ => true
  | _ :: _, [] => false
  | a :: as, b :: bs => a == b && strLeadsWith as bs

/-- Does `needle` occur somewhere in the character list? -/
def subSearch (needle : List Char) : List Char → Bool
  | [] => strLeadsWith needle []
  | c :: rest => strLeadsWith needle (c :: rest) || subSearch needle rest

/-- Python `needle in haystack` (substring containment). -/
def strHasSub (haystack needle : String) : Bool :=
  subSearch needle.data haystack.data

/-- Python `x or d` on an optional string: `None` and `""` are falsy. -/
def pyOrDefault (s : Option String) (d : String) : String :=
  match s with
  | none => d
  | some v => if v == "" then d else v

/-- Python `s[:n]`. -/
def pyTake (n : Nat) (s : String) : String :=
  String.mk (s.data.take n)

/-! ## proserver_service.get_all_live_building_arm_states

A result row of the admin-configured device query: `(row[0], row[1])`, i.e.
an optional building id and an optional free-text state string.  (The
source's `len(row) < 2` guard skips under-width rows; a typed pair always
has both columns, so that guard has no residue here.)
-/

/-- One row of the device query: building id (`row[0]`) and state text (`row[1]`). -/
abbrev ArmRow := Option Int × Option String

/-- The classification applied to one row's state text:
`state_str = str(state_txt or "").strip()`, then armed unless it contains
the literal substring `AreaArmingStates.2`. -/
def classifyArmed (stateTxt : Option String) : Bool :=
  let state_str := pyStrip (stateTxt.getD "")
  !(strHasSub state_str "AreaArmingStates.2")

/-- One iteration of the result loop: rows whose building id is absent or
falsy (`if not building_id: continue`, and Python's `0` is falsy) are
skipped; otherwise `result[int(building_id)] = is_armed` (last row wins). -/
def armStep (m : Int → Option Bool) (row : ArmRow) : Int → Option Bool :=
  match row.1 with
  | none => m
  | some bid =>
      if bid == 0 then m
      else fun k => if k == bid then some (classifyArmed row.2) else m k

/-- `get_all_live_building_arm_states`, as a function from the fetched rows
to the produced mapping (building id → armed flag, `none` = no entry). -/
def get_all_live_building_arm_states (rows : List ArmRow) : Int → Option Bool :=
  rows.foldl armStep (fun _ => none)

/-! ## proevent_service.apply_proevent_states_for_building (target computation) -/

/-- A ProEvent row fetched by `get_proevents_for_building_from_db`:
`id = ProEvent_PRK`, `state = pevReactive_FRK` (possibly NULL). -/
structure ProEvent where
  id : Int
  state : Option Int
  deriving Repr, DecidableEq

/-- One value of the sqlite ignore map (`sqlite_config.get_ignored_proevents`),
keyed by ProEvent id. -/
structure IgnoreEntry where
  building_frk : Option Int
  ignore_on_arm : Bool
  ignore_on_disarm : Bool
  deriving Repr, DecidableEq

/-- An `{"id": ..., "state": ...}` entry of the computed target list. -/
structure TargetState where
  id : Int
  state : Int
  deriving Repr, DecidableEq

/-- Step 2 of `apply_proevent_states_for_building`: the set of ids ignored by
configuration for this building's current panel mode (`ignore_on_arm` when
armed, `ignore_on_disarm` when disarmed). -/
def activeIgnoredIds (building_id : Int) (is_panel_armed : Bool)
    (ignored_map : List (Int × IgnoreEntry)) : List Int :=
  (ignored_map.filter (fun e =>
    e.2.building_frk == some building_id &&
    (if is_panel_armed then e.2.ignore_on_arm else e.2.ignore_on_disarm))).map (·.1)

/-- Step 3 of `apply_proevent_states_for_building`: the per-device rule
cascade, first match wins (A force-reactive, B configured ignore, C manual
preservation of a stored 1, D default reactive). -/
def computeTarget (force_reactive_ids active_ignored : List Int) (p : ProEvent) :
    TargetState :=
  if p.id ∈ force_reactive_ids then ⟨p.id, 0⟩
  else if p.id ∈ active_ignored then ⟨p.id, 1⟩
  else if p.state == some 1 then ⟨p.id, 1⟩
  else ⟨p.id, 0⟩

/-- Step 4 of `apply_proevent_states_for_building`: keep only targets whose
state differs from the current state of the (first) device with that id. -/
def finalUpdates (all_proevents : List ProEvent) (targets : List TargetState) :
    List TargetState :=
  targets.filter (fun t =>
    match all_proevents.find? (fun x => x.id == t.id) with
    | some d => !(d.state == some t.state)
    | none => false)

/-- The list submitted to `set_proevent_reactive_state_bulk` by
`apply_proevent_states_for_building` (empty when the function returns early
because the building has no devices or nothing changed). -/
def apply_proevent_states_for_building (building_id : Int) (is_panel_armed : Bool)
    (force_reactive_ids : List Int) (all_proevents : List ProEvent)
    (ignored_map : List (Int × IgnoreEntry)) : List TargetState :=
  if all_proevents.isEmpty then []
  else
    let active := activeIgnoredIds building_id is_panel_armed ignored_map
    finalUpdates all_proevents (all_proevents.map (computeTarget force_reactive_ids active))

/-- Whether `apply_proevent_states_for_building` reaches the bulk-update
call at all (`if not final_updates: return` guards it). -/
def applyCallsBulkUpdate (building_id : Int) (is_panel_armed : Bool)
    (force_reactive_ids : List Int) (all_proevents : List ProEvent)
    (ignored_map : List (Int × IgnoreEntry)) : Bool :=
  !(apply_proevent_states_for_building building_id is_panel_armed force_reactive_ids
      all_proevents ignored_map).isEmpty

/-! ## Failure propagation model

The raw outcome of each effectful call is passed in as an `Except String _`
value; each wrapper reproduces the source's own try/except on top of it:
`get_proevents_for_building_from_db` returns `[]` on error,
`set_proevent_reactive_state_bulk` returns `False` on error,
`get_all_live_building_arm_states` returns `{}` on error, and
`apply_proevent_states_for_building`'s outer `except` catches anything the
sqlite ignore-map read raises. -/

/-- The raw operation results an `apply_proevent_states_for_building` run
depends on. -/
structure ApplyEnv where
  rawProevents : Except String (List ProEvent)
  rawIgnored : Except String (List (Int × IgnoreEntry))
  rawBulk : Except String Unit

/-- `get_proevents_for_building_from_db`: its own except logs and returns `[]`. -/
def get_proevents_for_building_from_db (raw : Except String (List ProEvent)) :
    List ProEvent :=
  match raw with
  | .ok l => l
  | .error _ => []

/-- `set_proevent_reactive_state_bulk`: empty input short-circuits to `True`;
a database failure is caught and reported as `False`, never raised. -/
def set_proevent_reactive_state_bulk (raw : Except String Unit)
    (target_states : List TargetState) : Bool :=
  if target_states.isEmpty then true
  else
    match raw with
    | .ok _ => true
    | .error _ => false

/-- What one run of `apply_proevent_states_for_building` did: whether the
bulk update was invoked, and (if so) whether it reported success. -/
structure ApplyOutcome where
  bulkCalled : Bool
  bulkOk : Option Bool
  deriving Repr, DecidableEq

/-- A full run of `apply_proevent_states_for_building`.  Its outer `except`
catches every exception from its body (here: an ignore-map read failure), so
the function always returns normally — it never raises to its caller. -/
def apply_proevent_states_run (building_id : Int) (is_panel_armed : Bool)
    (force_reactive_ids : List Int) (env : ApplyEnv) : ApplyOutcome :=
  let all := get_proevents_for_building_from_db env.rawProevents
  if all.isEmpty then ⟨false, none⟩
  else
    match env.rawIgnored with
    | .error _ => ⟨false, none⟩
    | .ok im =>
        let fu := apply_proevent_states_for_building building_id is_panel_armed
          force_reactive_ids all im
        if fu.isEmpty then ⟨false, none⟩
        else ⟨true, some (set_proevent_reactive_state_bulk env.rawBulk fu)⟩

/-- `get_all_live_building_arm_states` including its own except: a failed
device query is logged and yields the empty mapping. -/
def get_all_live_run (raw : Except String (List ArmRow)) : Int → Option Bool :=
  match raw with
  | .ok rows => get_all_live_building_arm_states rows
  | .error _ => fun _ => none

/-- What `reevaluate_building_state` did: `none` when the building was absent
from the live mapping (early return), otherwise the apply run's outcome. -/
structure ReevalOutcome where
  applied : Option ApplyOutcome
  deriving Repr, DecidableEq

/-- `reevaluate_building_state`.  Its `except ... raise` re-raises anything
its body raises; every callee catches its own failures (returning `{}`, `[]`
or `False`), so no modelled failure ever reaches that `raise` and the result
is always `.ok`. -/
def reevaluate_building_state (building_id : Int) (force_reactive_ids : List Int)
    (rawLive : Except String (List ArmRow)) (env : ApplyEnv) :
    Except String ReevalOutcome :=
  match get_all_live_run rawLive building_id with
  | none => .ok ⟨none⟩
  | some armed =>
      .ok ⟨some (apply_proevent_states_run building_id armed force_reactive_ids env)⟩

/-- An HTTP response, reduced to status code and body text. -/
structure HttpReply where
  status : Nat
  body : String
  deriving Repr, DecidableEq

/-- The `POST /buildings/{id}/reevaluate` handler: 200 "success" when
`reevaluate_building_state` returns, 500 when it raises. -/
def reevaluate_building (building_id : Int) (rawLive : Except String (List ArmRow))
    (env : ApplyEnv) : HttpReply :=
  match reevaluate_building_state building_id [] rawLive env with
  | .ok _ => ⟨200, "success"⟩
  | .error e => ⟨500, "Failed to re-evaluate building: " ++ e⟩

/-! ## proevent_service.check_and_manage_scheduled_states

The wall-clock read `datetime.now(tz).strftime("%H:%M")` becomes the
`current_time` parameter; the live arm-state mapping is passed as its list
of entries, the building list as (id, name) rows, and the sqlite schedule
store as a lookup function.  The result is the trace of TCP sends, tagged
with the building id of the loop iteration that produced each message. -/

/-- A saved building schedule row (`sqlite_config.get_building_time`). -/
structure BuildingSchedule where
  start_time : Option String
  deriving Repr, DecidableEq

/-- `start_time = (schedule.get("start_time") or "20:00")[:5]`. -/
def schedStartHHMM (sched : BuildingSchedule) : String :=
  pyTake 5 (pyOrDefault sched.start_time "20:00")

/-- `building_map = {b['id']: b['name'] for b in buildings_list}` followed by
`building_map.get(building_id, f"Building_{building_id}")`: the last row for
a duplicated id wins, with a fallback name for unknown ids. -/
def lookupBuildingName (buildings : List (Int × String)) (bid : Int) : String :=
  match (buildings.filter (fun b => b.1 == bid)).getLast? with
  | some b => b.2
  | none => "Building_" ++ toString bid

/-- `send_axe_message`: refuses an empty building name (logs and returns),
otherwise emits `axe,<name>_Is_Armed@` / `axe,<name>_Is_Disarmed@`. -/
def send_axe_message (building_name : String) (is_armed : Bool) : Option String :=
  if building_name == "" then none
  else
    some ("axe," ++ building_name ++ "_" ++
      (if is_armed then "Is_Armed" else "Is_Disarmed") ++ "@")

/-- One iteration of the scheduled-time loop: skip buildings without a saved
schedule, skip when the clock does not match the schedule's HH:MM, log only
when armed, otherwise send the disarmed AXE alert. -/
def schedStep (current_time : String) (buildings : List (Int × String))
    (schedules : Int → Option BuildingSchedule) (bs : Int × Bool) :
    Option (Int × String) :=
  match schedules bs.1 with
  | none => none
  | some sched =>
      if current_time == schedStartHHMM sched then
        if bs.2 then none
        else (send_axe_message (lookupBuildingName buildings bs.1) false).map
          (fun m => (bs.1, m))
      else none

/-- `check_and_manage_scheduled_states`: the trace of (building id, AXE
message) sends for one invocation. -/
def check_and_manage_scheduled_states (current_time : String)
    (live_states : List (Int × Bool)) (buildings : List (Int × String))
    (schedules : Int → Option BuildingSchedule) : List (Int × String) :=
  live_states.filterMap (schedStep current_time buildings schedules)

/-! ## routes.py handlers -/

/-- One item of an `IgnoredItemBulkRequest`. -/
structure IgnoredItem where
  item_id : Int
  building_frk : Int
  device_prk : Int
  ignore : Bool
  deriving Repr, DecidableEq

/-- The `unignored_ids` list built by `manage_ignored_proevents_bulk`: the
item ids of every request item whose `ignore` is false, in request order. -/
def unignoredIds (items : List IgnoredItem) : List Int :=
  (items.filter (fun i => i.ignore == false)).map (·.item_id)

/-- The `unique_buildings` set of `manage_ignored_proevents_bulk`, as the
deduplicated list of `building_frk` values (a Python set iterates in an
unspecified order; all claims about it are order-insensitive). -/
def uniqueBuildings (items : List IgnoredItem) : List Int :=
  (items.map (·.building_frk)).dedup

/-- The trace of `reevaluate_building_state` calls made by
`manage_ignored_proevents_bulk`: one call per distinct building, each passed
the complete `unignored_ids` list as its force-reactive ids. -/
def manage_ignored_proevents_bulk_calls (items : List IgnoredItem) :
    List (Int × List Int) :=
  (uniqueBuildings items).map (fun b => (b, unignoredIds items))

/-- Formalisation of claim C2's wording (not of the source): the subset of
the request's `ignore = false` item ids that belong to building `b`. -/
def claimedForceSubset (items : List IgnoredItem) (b : Int) : List Int :=
  (items.filter (fun i => i.ignore == false && i.building_frk == b)).map (·.item_id)

/-- A `BuildingTimeRequest` body. -/
structure BuildingTimeRequest where
  building_id : Int
  start_time : String
  deriving Repr, DecidableEq

/-- Modelled from the spec: `sqlite_config.set_building_time` (its source is
not provided) upserts the schedule's `start_time` keyed by building id
(§4.3, one row per building, upsert on save). -/
def set_building_time (store : Int → Option String) (building_id : Int)
    (start_time : String) : Int → Option String :=
  fun k => if k == building_id then some start_time else store k

/-- The `POST /buildings/{building_id}/time` handler: HTTP status paired with
the resulting schedule store.  The id-mismatch guard raises 400 before any
store access. -/
def set_building_scheduled_time (path_building_id : Int)
    (request : BuildingTimeRequest) (store : Int → Option String) :
    Nat × (Int → Option String) :=
  if !(request.building_id == path_building_id) then (400, store)
  else (200, set_building_time store path_building_id request.start_time)

/-! ## admin_routes.py user management

The sqlite `admin_users` table is a list of rows; password hashing and
verification are abstract parameters (their outputs never influence the
control flow relevant to the claims). -/

/-- A row of the `admin_users` table. -/
structure AdminUser where
  id : Int
  username : String
  password_hash : String
  is_admin : Bool
  deriving Repr, DecidableEq

/-- An `UpdateUserRequest` body (both fields optional). -/
structure UpdateUserRequest where
  is_admin : Option Bool
  new_password : Option String
  deriving Repr, DecidableEq

/-- A `CreateUserRequest` body. -/
structure CreateUserRequest where
  username : String
  password : String
  is_admin : Bool
  deriving Repr, DecidableEq

/-- `SELECT username FROM admin_users WHERE id = ?` with `fetchone()`. -/
def findUserById (users : List AdminUser) (user_id : Int) : Option AdminUser :=
  users.find? (fun u => u.id == user_id)

/-- The `UPDATE admin_users SET is_admin = ? WHERE id = ?` statement, run
only when the request carries an `is_admin` value. -/
def applyAdminFlag (user_id : Int) (request : UpdateUserRequest)
    (users : List AdminUser) : List AdminUser :=
  match request.is_admin with
  | some b => users.map (fun u =>
      if u.id == user_id then { u with is_admin := b } else u)
  | none => users

/-- The `PUT /admin/users/{user_id}` handler body (after `require_admin`):
status code and resulting table.  A weak new password raises inside the
transaction, so the sqlite context manager rolls the earlier admin-flag
update back (`conn.rollback()`); `if request.new_password:` treats the empty
string as absent. -/
def update_user (hashp : String → String) (users : List AdminUser)
    (admin_username : String) (user_id : Int) (request : UpdateUserRequest) :
    Nat × List AdminUser :=
  match findUserById users user_id with
  | none => (404, users)
  | some row =>
      if row.username == admin_username && request.is_admin == some false then
        (400, users)
      else
        match request.new_password with
        | none => (200, applyAdminFlag user_id request users)
        | some p =>
            if p == "" then (200, applyAdminFlag user_id request users)
            else if p.length < 6 then (400, users)
            else (200, (applyAdminFlag user_id request users).map (fun u =>
              if u.id == user_id then { u with password_hash := hashp p } else u))

/-- The `DELETE /admin/users/{user_id}` handler body (after `require_admin`). -/
def delete_user (users : List AdminUser) (admin_username : String)
    (user_id : Int) : Nat × List AdminUser :=
  match findUserById users user_id with
  | none => (404, users)
  | some row =>
      if row.username == admin_username then (400, users)
      else (200, users.filter (fun u => !(u.id == user_id)))

/-- The id sqlite's integer primary key would assign to a new row: one more
than the largest id in the table (so always fresh). -/
def freshUserId (users : List AdminUser) : Int :=
  (users.map AdminUser.id).foldr max 0 + 1

/-- The `POST /admin/users` handler body (after `require_admin`). -/
def create_user (hashp : String → String) (users : List AdminUser)
    (request : CreateUserRequest) : Nat × List AdminUser :=
  if request.username.length < 3 then (400, users)
  else if request.password.length < 6 then (400, users)
  else if users.any (fun u => u.username == request.username) then (400, users)
  else (200, users ++
    [⟨freshUserId users, request.username, hashp request.password, request.is_admin⟩])

/-- The `POST /admin/change-password` handler body (any authenticated user). -/
def change_password (hashp : String → String) (verify : String → String → Bool)
    (users : List AdminUser) (username current_password new_password : String) :
    Nat × List AdminUser :=
  match users.find? (fun u => u.username == username) with
  | none => (404, users)
  | some row =>
      if !(verify current_password row.password_hash) then (401, users)
      else (200, users.map (fun u =>
        if u.username == username then { u with password_hash := hashp new_password }
        else u))

/-- One admin-API operation touching the `admin_users` table, performed by a
fixed acting user. -/
inductive AdminOp where
  | updateU (user_id : Int) (request : UpdateUserRequest)
  | deleteU (user_id : Int)
  | createU (request : CreateUserRequest)
  | changePw (current_password new_password : String)

/-- `require_admin`: the acting user must exist and carry the admin flag. -/
def isActingAdmin (users : List AdminUser) (actor : String) : Bool :=
  match users.find? (fun u => u.username == actor) with
  | some row => row.is_admin
  | none => false

/-- Run one operation: the user-mutating routes are gated by `require_admin`
(the table is untouched on 401/403); change-password needs authentication
only. -/
def runAdminOp (hashp : String → String) (verify : String → String → Bool)
    (actor : String) (users : List AdminUser) : AdminOp → List AdminUser
  | .updateU uid req =>
      if isActingAdmin users actor then (update_user hashp users actor uid req).2
      else users
  | .deleteU uid =>
      if isActingAdmin users actor then (delete_user users actor uid).2 else users
  | .createU req =>
      if isActingAdmin users actor then (create_user hashp users req).2 else users
  | .changePw c n => (change_password hashp verify users actor c n).2

/-- Run a sequence of admin-API operations by the same acting user. -/
def runAdminOps (hashp : String → String) (verify : String → String → Bool)
    (actor : String) (users : List AdminUser) (ops : List AdminOp) :
    List AdminUser :=
  ops.foldl (runAdminOp hashp verify actor) users

/-- The acting user is still present with the admin flag set. -/
def actorIntact (users : List AdminUser) (actor : String) : Bool :=
  users.any (fun u => u.username == actor && u.is_admin)

/-! ## Reconciliation lemmas -/

/-- The rule cascade never changes the device id it reports. -/
theorem computeTarget_id (f a : List Int) (p : ProEvent) :
    (computeTarget f a p).id = p.id := by
  simp only [computeTarget]
  split
  · rfl
  · split
    · rfl
    · split <;> rfl

/-- Every emitted update is the computed target of some device of the building. -/
theorem mem_apply_targets {building_id : Int} {is_panel_armed : Bool}
    {force : List Int} {all : List ProEvent} {im : List (Int × IgnoreEntry)}
    {t : TargetState}
    (ht : t ∈ apply_proevent_states_for_building building_id is_panel_armed force all im) :
    ∃ q ∈ all,
      computeTarget force (activeIgnoredIds building_id is_panel_armed im) q = t := by
  unfold apply_proevent_states_for_building at ht
  split at ht
  · simp at ht
  · unfold finalUpdates at ht
    have hmem := (List.mem_filter.mp ht).1
    obtain ⟨q, hq, hqt⟩ := List.mem_map.mp hmem
    exact ⟨q, hq, hqt⟩

/-- Every emitted update passed the diff check against the first device with
its id. -/
theorem mem_apply_diff {building_id : Int} {is_panel_armed : Bool}
    {force : List Int} {all : List ProEvent} {im : List (Int × IgnoreEntry)}
    {t : TargetState}
    (ht : t ∈ apply_proevent_states_for_building building_id is_panel_armed force all im) :
    ∃ d, all.find? (fun x => x.id == t.id) = some d ∧ d.state ≠ some t.state := by
  unfold apply_proevent_states_for_building at ht
  split at ht
  · simp at ht
  · unfold finalUpdates at ht
    have hpred := (List.mem_filter.mp ht).2
    cases hfind : all.find? (fun x => x.id == t.id) with
    | none => rw [hfind] at hpred; simp at hpred
    | some d =>
        rw [hfind] at hpred
        simp only [Bool.not_eq_true', beq_eq_false_iff_ne, ne_eq] at hpred
        exact ⟨d, rfl, hpred⟩

/-- C1: in every building reconciliation run, a device whose stored state is
1 (Non-Reactive) that is neither in the force-reactive list nor
configured-ignored for the current panel mode gets computed target state 1,
and no `{id, state 0}` update for it is ever part of the bulk update. -/
theorem manual_nonreactive_preserved
    (building_id : Int) (is_panel_armed : Bool) (force_reactive_ids : List Int)
    (all_proevents : List ProEvent) (ignored_map : List (Int × IgnoreEntry))
    (p : ProEvent)
    (hmem : p ∈ all_proevents)
    (hstate : p.state = some 1)
    (hforce : p.id ∉ force_reactive_ids)
    (hign : p.id ∉ activeIgnoredIds building_id is_panel_armed ignored_map)
    (hnd : (all_proevents.map ProEvent.id).Nodup) :
    computeTarget force_reactive_ids
        (activeIgnoredIds building_id is_panel_armed ignored_map) p = ⟨p.id, 1⟩ ∧
    (⟨p.id, 0⟩ : TargetState) ∉
      apply_proevent_states_for_building building_id is_panel_armed
        force_reactive_ids all_proevents ignored_map := by
  have htarget : computeTarget force_reactive_ids
      (activeIgnoredIds building_id is_panel_armed ignored_map) p = ⟨p.id, 1⟩ := by
    simp only [computeTarget, if_neg hforce, if_neg hign, hstate]
    simp
  refine ⟨htarget, fun hcontra => ?_⟩
  obtain ⟨q, hq, hqt⟩ := mem_apply_targets hcontra
  have hqid : q.id = p.id := by
    have h := computeTarget_id force_reactive_ids
      (activeIgnoredIds building_id is_panel_armed ignored_map) q
    rw [hqt] at h
    exact h.symm
  have hqp : q = p :=
    List.inj_on_of_nodup_map hnd hq hmem hqid
  rw [hqp, htarget] at hqt
  exact absurd (congrArg TargetState.state hqt) (by simp)

/-- Closed instance of `manual_nonreactive_preserved`. -/
theorem manual_nonreactive_preserved_witness :
    computeTarget [] (activeIgnoredIds 5 true []) ⟨1, some 1⟩ = ⟨1, 1⟩ ∧
    (⟨1, 0⟩ : TargetState) ∉
      apply_proevent_states_for_building 5 true [] [⟨1, some 1⟩] [] :=
  manual_nonreactive_preserved 5 true [] [⟨1, some 1⟩] [] ⟨1, some 1⟩
    (by decide) rfl (by decide) (by decide) (by decide)

/-- C4: a device in the caller-supplied force-reactive list always gets
computed target state 0, whatever the configured-ignore set for the current
panel mode says — rule A is evaluated first and first match wins. -/
theorem force_reactive_overrides_ignore
    (building_id : Int) (is_panel_armed : Bool) (force_reactive_ids : List Int)
    (ignored_map : List (Int × IgnoreEntry)) (p : ProEvent)
    (hforce : p.id ∈ force_reactive_ids) :
    computeTarget force_reactive_ids
      (activeIgnoredIds building_id is_panel_armed ignored_map) p = ⟨p.id, 0⟩ := by
  simp only [computeTarget, if_pos hforce]

/-- Closed instance of `force_reactive_overrides_ignore`, at an input where
the device is simultaneously configured-ignored for the current panel mode. -/
theorem force_reactive_overrides_ignore_witness :
    (7 : Int) ∈ activeIgnoredIds 3 false [(7, ⟨some 3, false, true⟩)] ∧
    computeTarget [7] (activeIgnoredIds 3 false [(7, ⟨some 3, false, true⟩)])
      ⟨7, some 1⟩ = ⟨7, 0⟩ :=
  ⟨by decide,
   force_reactive_overrides_ignore 3 false [7] [(7, ⟨some 3, false, true⟩)]
     ⟨7, some 1⟩ (by decide)⟩

/-- An emitted update comes from a device whose computed target differs
from its stored state (given database-unique ids). -/
theorem apply_mem_changed {building_id : Int} {is_panel_armed : Bool}
    {force : List Int} {all : List ProEvent} {im : List (Int × IgnoreEntry)}
    (hnd : (all.map ProEvent.id).Nodup) {t : TargetState}
    (ht : t ∈ apply_proevent_states_for_building building_id is_panel_armed force all im) :
    ∃ p ∈ all, p.id = t.id ∧ p.state ≠ some t.state ∧
      computeTarget force (activeIgnoredIds building_id is_panel_armed im) p = t := by
  obtain ⟨q, hq, hqt⟩ := mem_apply_targets ht
  obtain ⟨d, hfind, hdiff⟩ := mem_apply_diff ht
  have hd : d ∈ all := List.mem_of_find?_eq_some hfind
  have hdid : d.id = t.id := by
    have h := List.find?_some hfind
    simpa using h
  have hqid : q.id = t.id := by
    have h := computeTarget_id force (activeIgnoredIds building_id is_panel_armed im) q
    rw [hqt] at h
    exact h.symm
  have hdq : d = q := List.inj_on_of_nodup_map hnd hd hq (hdid.trans hqid.symm)
  exact ⟨q, hq, hqid, hdq ▸ hdiff, hqt⟩

/-- C5: the bulk update receives only devices whose computed target differs
from their current stored state, and when every device already matches its
target, the update list is empty and the bulk-update call is never reached. -/
theorem bulk_update_only_changed
    (building_id : Int) (is_panel_armed : Bool) (force : List Int)
    (all : List ProEvent) (im : List (Int × IgnoreEntry))
    (hnd : (all.map ProEvent.id).Nodup) :
    (∀ t ∈ apply_proevent_states_for_building building_id is_panel_armed force all im,
      ∃ p ∈ all, p.id = t.id ∧ p.state ≠ some t.state ∧
        computeTarget force (activeIgnoredIds building_id is_panel_armed im) p = t) ∧
    ((∀ p ∈ all, p.state =
        some (computeTarget force (activeIgnoredIds building_id is_panel_armed im) p).state) →
      apply_proevent_states_for_building building_id is_panel_armed force all im = [] ∧
      applyCallsBulkUpdate building_id is_panel_armed force all im = false) := by
  constructor
  · intro t ht
    exact apply_mem_changed hnd ht
  · intro hall
    have hnil : apply_proevent_states_for_building building_id is_panel_armed force all im
        = [] := by
      by_contra hne
      obtain ⟨t, ht⟩ := List.exists_mem_of_ne_nil _ hne
      obtain ⟨q, hq, hqid, hdiff, hqt⟩ := apply_mem_changed hnd ht
      exact hdiff (hqt ▸ hall q hq)
    exact ⟨hnil, by simp [applyCallsBulkUpdate, hnil]⟩

/-- Closed instance of `bulk_update_only_changed`: an all-already-correct
building yields no update list and no bulk call. -/
theorem bulk_update_only_changed_witness :
    apply_proevent_states_for_building 4 true [] [⟨1, some 0⟩, ⟨2, some 1⟩] [] = [] ∧
    applyCallsBulkUpdate 4 true [] [⟨1, some 0⟩, ⟨2, some 1⟩] [] = false :=
  (bulk_update_only_changed 4 true [] [⟨1, some 0⟩, ⟨2, some 1⟩] [] (by decide)).2
    (by decide)

/-! ## Bulk-ignore handler (C2) -/

/-- C2 counterexample: a request with ignore=false items for two different
buildings.  The call for building 10 is passed the complete list [1, 2],
while the subset of the request's ignore=false items belonging to building
10 is just [1] — the handler does not pass per-building subsets. -/
theorem bulk_ignore_passes_full_list_counterexample :
    manage_ignored_proevents_bulk_calls
        [⟨1, 10, 0, false⟩, ⟨2, 20, 0, false⟩] =
      [(10, [1, 2]), (20, [1, 2])] ∧
    claimedForceSubset [⟨1, 10, 0, false⟩, ⟨2, 20, 0, false⟩] 10 = [1] ∧
    ([1, 2] : List Int) ≠ [1] := by
  refine ⟨rfl, rfl, by decide⟩

/-- C2 amended: the handler calls immediate re-evaluation exactly once per
distinct building_frk appearing in the request's items, and every such call
is passed the complete list of the request's ignore=false item ids
(irrespective of which building each id belongs to). -/
theorem bulk_ignore_once_per_building_full_list (items : List IgnoredItem) :
    ((manage_ignored_proevents_bulk_calls items).map Prod.fst).Nodup ∧
    (∀ b : Int, b ∈ (manage_ignored_proevents_bulk_calls items).map Prod.fst ↔
      b ∈ items.map IgnoredItem.building_frk) ∧
    ∀ c ∈ manage_ignored_proevents_bulk_calls items, c.2 = unignoredIds items := by
  have hfst : (manage_ignored_proevents_bulk_calls items).map Prod.fst =
      uniqueBuildings items := by
    simp [manage_ignored_proevents_bulk_calls, List.map_map, Function.comp_def]
  refine ⟨?_, fun b => ?_, fun c hc => ?_⟩
  · rw [hfst]
    exact List.nodup_dedup _
  · rw [hfst]
    exact List.mem_dedup
  · obtain ⟨b, hb, hbc⟩ :=
      List.mem_map.mp (by simpa [manage_ignored_proevents_bulk_calls] using hc)
    rw [← hbc]

/-- Closed instance of `bulk_ignore_once_per_building_full_list`. -/
theorem bulk_ignore_once_per_building_full_list_witness :
    ((manage_ignored_proevents_bulk_calls
        [⟨1, 10, 0, false⟩, ⟨3, 10, 0, true⟩, ⟨2, 20, 0, false⟩]).map Prod.fst).Nodup ∧
    (∀ b : Int, b ∈ (manage_ignored_proevents_bulk_calls
        [⟨1, 10, 0, false⟩, ⟨3, 10, 0, true⟩, ⟨2, 20, 0, false⟩]).map Prod.fst ↔
      b ∈ [⟨1, 10, 0, false⟩, ⟨3, 10, 0, true⟩,
        (⟨2, 20, 0, false⟩ : IgnoredItem)].map IgnoredItem.building_frk) ∧
    ∀ c ∈ manage_ignored_proevents_bulk_calls
        [⟨1, 10, 0, false⟩, ⟨3, 10, 0, true⟩, ⟨2, 20, 0, false⟩],
      c.2 = unignoredIds [⟨1, 10, 0, false⟩, ⟨3, 10, 0, true⟩, ⟨2, 20, 0, false⟩] :=
  bulk_ignore_once_per_building_full_list
    [⟨1, 10, 0, false⟩, ⟨3, 10, 0, true⟩, ⟨2, 20, 0, false⟩]

/-! ## Failure propagation (C3, C10) -/

/-- C3 counterexample: the building is present in the live mapping and a
device needs an update, but the bulk reactive-state update fails.  The
failure is reported as `False` and swallowed, `reevaluate_building_state`
returns normally, and the handler answers 200 "success" — not 500. -/
theorem reevaluate_swallows_bulk_failure_counterexample :
    reevaluate_building_state 7 []
        (.ok [(some 7, some "AreaArmingStates.2")])
        ⟨.ok [⟨1, none⟩], .ok [], .error "update failed"⟩ =
      .ok ⟨some ⟨true, some false⟩⟩ ∧
    reevaluate_building 7 (.ok [(some 7, some "AreaArmingStates.2")])
        ⟨.ok [⟨1, none⟩], .ok [], .error "update failed"⟩ =
      ⟨200, "success"⟩ := by
  exact ⟨rfl, rfl⟩

/-- C3 amended: every failure of the live-state read, the ProEvent read, the
ignore-configuration read or the bulk update is caught below
`reevaluate_building_state` (the lower layers return `{}`, `[]` or `False`,
and `apply_proevent_states_for_building` catches the rest), so
`reevaluate_building_state` always returns normally and the
`POST /buildings/{id}/reevaluate` handler always answers 200; its 500 path is
unreachable for these failures. -/
theorem reevaluate_never_raises (building_id : Int) (force : List Int)
    (rawLive : Except String (List ArmRow)) (env : ApplyEnv) :
    (∃ o, reevaluate_building_state building_id force rawLive env = .ok o) ∧
    (reevaluate_building building_id rawLive env).status = 200 := by
  constructor
  · unfold reevaluate_building_state
    cases get_all_live_run rawLive building_id <;> exact ⟨_, rfl⟩
  · unfold reevaluate_building reevaluate_building_state
    cases get_all_live_run rawLive building_id <;> rfl

/-- C10: a building id absent from the live arm-state mapping makes
`reevaluate_building_state` return early — no raise, no reconciliation, no
bulk update — and the handler still reports success. -/
theorem reevaluate_missing_building_noop (building_id : Int)
    (rawLive : Except String (List ArmRow)) (env : ApplyEnv)
    (habsent : get_all_live_run rawLive building_id = none) :
    (∀ force : List Int,
      reevaluate_building_state building_id force rawLive env = .ok ⟨none⟩) ∧
    reevaluate_building building_id rawLive env = ⟨200, "success"⟩ := by
  have h : ∀ force : List Int,
      reevaluate_building_state building_id force rawLive env = .ok ⟨none⟩ := by
    intro force
    unfold reevaluate_building_state
    rw [habsent]
  refine ⟨h, ?_⟩
  unfold reevaluate_building
  rw [h []]

/-- Closed instance of `reevaluate_missing_building_noop`: the device query
failed, so the live mapping is empty and nothing is evaluated, yet the
handler reports success. -/
theorem reevaluate_missing_building_noop_witness :
    (∀ force : List Int,
      reevaluate_building_state 5 force (.error "query failed")
        ⟨.ok [], .ok [], .ok ()⟩ = .ok ⟨none⟩) ∧
    reevaluate_building 5 (.error "query failed") ⟨.ok [], .ok [], .ok ()⟩ =
      ⟨200, "success"⟩ :=
  reevaluate_missing_building_noop 5 (.error "query failed")
    ⟨.ok [], .ok [], .ok ()⟩ rfl

/-! ## Schedule store (C8) -/

/-- C8: `POST /buildings/{id}/time` with a body building id different from
the path id answers 400 and leaves the schedule of every building
unchanged. -/
theorem set_time_mismatch_no_write (path_building_id : Int)
    (request : BuildingTimeRequest) (store : Int → Option String)
    (hne : request.building_id ≠ path_building_id) :
    (set_building_scheduled_time path_building_id request store).1 = 400 ∧
    ∀ b : Int,
      (set_building_scheduled_time path_building_id request store).2 b = store b := by
  have hbeq : (request.building_id == path_building_id) = false := by
    simpa using hne
  constructor
  · simp [set_building_scheduled_time, hbeq]
  · intro b
    simp [set_building_scheduled_time, hbeq]

/-- Closed instance of `set_time_mismatch_no_write`. -/
theorem set_time_mismatch_no_write_witness :
    (set_building_scheduled_time 1 ⟨2, "08:00"⟩ (fun _ => none)).1 = 400 ∧
    ∀ b : Int, (set_building_scheduled_time 1 ⟨2, "08:00"⟩ (fun _ => none)).2 b = none :=
  set_time_mismatch_no_write 1 ⟨2, "08:00"⟩ (fun _ => none) (by decide)

/-! ## Live arm-state mapping (C6) -/

/-- Left-biased choice on options (Python dict overwrite, read backwards). -/
def optOr (a b : Option α) : Option α :=
  match a with
  | some v => some v
  | none => b

/-- Formalisation of claim C6's wording (not of the source): one entry per
building id encountered in the rows, the last row for an id wins, each row
classified by `AreaArmingStates.2` substring containment. -/
def specArmMapC6 (rows : List ArmRow) (k : Int) : Option Bool :=
  ((rows.filter (fun r => r.1 == some k)).map (fun r => classifyArmed r.2)).getLast?

theorem optOr_none (a : Option α) : optOr a none = a := by
  cases a <;> rfl

theorem getLast?_cons_optOr (a : α) (l : List α) :
    (a :: l).getLast? = optOr l.getLast? (some a) := by
  cases l with
  | nil => rfl
  | cons b bs =>
      rw [List.getLast?_cons_cons]
      obtain ⟨x, hx⟩ := Option.isSome_iff_exists.mp
        (List.getLast?_isSome.mpr (List.cons_ne_nil b bs))
      rw [hx]
      rfl

/-- The fold underlying `get_all_live_building_arm_states`, looked up at a
nonzero key: the last matching row wins, with the seed as fallback. -/
theorem armFold_lookup (rows : List ArmRow) (m : Int → Option Bool) (k : Int)
    (hk : k ≠ 0) :
    (rows.foldl armStep m) k =
      optOr ((rows.filter (fun r => r.1 == some k)).map
        (fun r => classifyArmed r.2)).getLast? (m k) := by
  induction rows generalizing m with
  | nil => rfl
  | cons r rest ih =>
      rw [List.foldl_cons, ih]
      rcases r with ⟨bid?, txt⟩
      cases bid? with
      | none =>
          simp only [List.filter_cons]
          norm_num [armStep]
      | some bid =>
          by_cases hbk : bid = k
          · subst hbk
            have hb0 : (bid == 0) = false := by simp [hk]
            simp only [List.filter_cons, beq_self_eq_true, if_pos, List.map_cons,
              armStep, hb0, Bool.false_eq_true, ↓reduceIte, beq_self_eq_true']
            rw [getLast?_cons_optOr]
            cases hlast : ((rest.filter (fun r => r.1 == some bid)).map
              (fun r => classifyArmed r.2)).getLast? <;> simp [optOr]
          · have hflt : (((some bid, txt) : ArmRow).1 == some k) = false := by
              simp [hbk]
            simp only [List.filter_cons, hflt, Bool.false_eq_true, ↓reduceIte]
            by_cases hb0 : bid = 0
            · simp [armStep, hb0]
            · have hkb : (k == bid) = false := by
                simp [Ne.symm hbk]
              simp [armStep, hb0, hkb]

/-- The fold never creates an entry for key 0 (rows with a falsy building id
are skipped). -/
theorem armFold_zero (rows : List ArmRow) (m : Int → Option Bool) :
    (rows.foldl armStep m) 0 = m 0 := by
  induction rows generalizing m with
  | nil => rfl
  | cons r rest ih =>
      rw [List.foldl_cons, ih]
      rcases r with ⟨bid?, txt⟩
      cases bid? with
      | none => rfl
      | some bid =>
          by_cases hb : bid = 0
          · simp [armStep, hb]
          · have h0b : ((0 : Int) == bid) = false := by
              simp [Ne.symm hb]
            simp [armStep, hb, h0b]

/-- C6 counterexample: a result row whose building id is 0 (falsy in the
source's `if not building_id` guard) is skipped, so the returned mapping has
no entry for an encountered building id, where the claim's reading produces
an armed entry. -/
theorem live_arm_state_zero_id_counterexample :
    get_all_live_building_arm_states [(some 0, some "AreaArmingStates.1")] 0 = none ∧
    specArmMapC6 [(some 0, some "AreaArmingStates.1")] 0 = some true := by
  exact ⟨rfl, rfl⟩

/-- C6 amended: for every nonzero building id the mapping agrees with the
claim (the last row for the id wins and the state text is classified by
`AreaArmingStates.2` containment, empty or absent text counting as armed);
rows whose building id is absent or 0 are skipped, so id 0 never gets an
entry. -/
theorem live_arm_state_classification (rows : List ArmRow) :
    (∀ k : Int, k ≠ 0 →
      get_all_live_building_arm_states rows k = specArmMapC6 rows k) ∧
    get_all_live_building_arm_states rows 0 = none := by
  constructor
  · intro k hk
    unfold get_all_live_building_arm_states specArmMapC6
    rw [armFold_lookup rows _ k hk]
    exact optOr_none _
  · exact armFold_zero rows _

/-- Closed instance of `live_arm_state_classification`, on rows with a
duplicated id and the spec's representative state strings. -/
theorem live_arm_state_classification_witness :
    get_all_live_building_arm_states
        [(some 5, some "Prefix_AreaArmingStates.2_Suffix"), (some 5, some "AreaArmingStates.1")] 5 =
      specArmMapC6
        [(some 5, some "Prefix_AreaArmingStates.2_Suffix"), (some 5, some "AreaArmingStates.1")] 5 ∧
    get_all_live_building_arm_states
        [(some 5, some "Prefix_AreaArmingStates.2_Suffix"), (some 5, some "AreaArmingStates.1")] 0 =
      none :=
  ⟨(live_arm_state_classification
      [(some 5, some "Prefix_AreaArmingStates.2_Suffix"), (some 5, some "AreaArmingStates.1")]).1
      5 (by decide),
   (live_arm_state_classification
      [(some 5, some "Prefix_AreaArmingStates.2_Suffix"), (some 5, some "AreaArmingStates.1")]).2⟩

/-- The spec's representative state strings, classified: empty and absent
text and a non-matching state are armed; a text containing the substring
anywhere is disarmed. -/
theorem classifyArmed_representatives :
    classifyArmed (some "") = true ∧
    classifyArmed none = true ∧
    classifyArmed (some "AreaArmingStates.1") = true ∧
    classifyArmed (some "AreaArmingStates.2") = false ∧
    classifyArmed (some "Prefix_AreaArmingStates.2_Suffix") = false ∧
    classifyArmed (some "  AreaArmingStates.2  ") = false := by
  exact ⟨rfl, rfl, rfl, rfl, rfl, rfl⟩

/-! ## Scheduled-time check (C7) -/

/-- Unfolding of `schedStep` when the building has no saved schedule. -/
theorem schedStep_none (ct : String) (buildings : List (Int × String))
    (schedules : Int → Option BuildingSchedule) (b : Int) (armed : Bool)
    (h : schedules b = none) :
    schedStep ct buildings schedules (b, armed) = none := by
  unfold schedStep
  rw [show schedules (b, armed).1 = none from h]

/-- Unfolding of `schedStep` when the building has a saved schedule. -/
theorem schedStep_some (ct : String) (buildings : List (Int × String))
    (schedules : Int → Option BuildingSchedule) (b : Int) (armed : Bool)
    (sched : BuildingSchedule) (h : schedules b = some sched) :
    schedStep ct buildings schedules (b, armed) =
      (if ct == schedStartHHMM sched then
        if armed then none
        else (send_axe_message (lookupBuildingName buildings b) false).map
          (fun m => (b, m))
      else none) := by
  unfold schedStep
  rw [show schedules (b, armed).1 = some sched from h]

/-- A send produced by a loop iteration is tagged with that iteration's
building id. -/
theorem schedStep_fst_eq {ct : String} {buildings : List (Int × String)}
    {schedules : Int → Option BuildingSchedule} {bs : Int × Bool}
    {out : Int × String}
    (h : schedStep ct buildings schedules bs = some out) : out.1 = bs.1 := by
  rcases bs with ⟨b, armed⟩
  rcases hsch : schedules b with _ | sched
  · rw [schedStep_none ct buildings schedules b armed hsch] at h
    cases h
  · rw [schedStep_some ct buildings schedules b armed sched hsch] at h
    by_cases hct : (ct == schedStartHHMM sched) = true
    · rw [if_pos hct] at h
      cases armed with
      | true => simp at h
      | false =>
          simp only [Bool.false_eq_true, ↓reduceIte] at h
          obtain ⟨m, _, hm⟩ := Option.map_eq_some'.mp h
          rw [← hm]
    · rw [if_neg hct] at h
      cases h

/-- Buildings not in the live list contribute no send tagged with their id. -/
theorem sched_filter_not_mem {ct : String} {buildings : List (Int × String)}
    {schedules : Int → Option BuildingSchedule} {bid : Int}
    (live : List (Int × Bool)) (hb : bid ∉ live.map Prod.fst) :
    (live.filterMap (schedStep ct buildings schedules)).filter
      (fun p => p.1 == bid) = [] := by
  induction live with
  | nil => rfl
  | cons x rest ih =>
      have hx : x.1 ≠ bid := by
        intro h
        exact hb (by simp [← h])
      have hrest : bid ∉ rest.map Prod.fst := by
        intro h
        exact hb (by simp [h])
      simp only [List.filterMap_cons]
      cases hs : schedStep ct buildings schedules x with
      | none => exact ih hrest
      | some out =>
          have hout : out.1 = x.1 := schedStep_fst_eq hs
          rw [List.filter_cons]
          have : (out.1 == bid) = false := by simp [hout, hx]
          simp only [this, Bool.false_eq_true, ↓reduceIte]
          exact ih hrest

/-- C7 counterexample: building 1 is disarmed at exactly its schedule's
minute, but its display name in the building list is the empty string and
`send_axe_message` refuses empty names, so no TCP alert is sent. -/
theorem scheduled_alert_empty_name_counterexample :
    schedStartHHMM ⟨some "10:00"⟩ = "10:00" ∧
    check_and_manage_scheduled_states "10:00" [(1, false)] [(1, "")]
      (fun b => if b == 1 then some ⟨some "10:00"⟩ else none) = [] := by
  exact ⟨rfl, rfl⟩

/-- C7 amended: for every building of the live mapping with a saved
schedule, exactly one disarmed AXE alert is sent when the formatted
Asia/Kolkata wall-clock time equals the schedule's start_time truncated to
HH:MM, the building's live state is disarmed, and its resolved display name
is non-empty; no alert is sent when the time differs, the building is
armed, or the resolved name is empty. -/
theorem scheduled_alert_exactly_when (current_time : String)
    (live_states : List (Int × Bool)) (buildings : List (Int × String))
    (schedules : Int → Option BuildingSchedule) (bid : Int) (armed : Bool)
    (sched : BuildingSchedule)
    (hnd : (live_states.map Prod.fst).Nodup)
    (hmem : (bid, armed) ∈ live_states)
    (hsched : schedules bid = some sched) :
    (check_and_manage_scheduled_states current_time live_states buildings
        schedules).filter (fun p => p.1 == bid) =
      (if current_time == schedStartHHMM sched && !armed
          && !(lookupBuildingName buildings bid == "") then
        [(bid, "axe," ++ lookupBuildingName buildings bid ++ "_Is_Disarmed@")]
      else []) := by
  induction live_states with
  | nil => cases hmem
  | cons x rest ih =>
      rcases List.mem_cons.mp hmem with hx | hx
      · subst hx
        have hrest : bid ∉ rest.map Prod.fst := by
          have h := (List.nodup_cons.mp hnd).1
          simpa using h
        unfold check_and_manage_scheduled_states
        by_cases hct : (current_time == schedStartHHMM sched) = true
        · cases armed with
          | true =>
              have hstep : schedStep current_time buildings schedules (bid, true)
                  = none := by
                rw [schedStep_some current_time buildings schedules bid true sched
                  hsched, if_pos hct]
                rfl
              rw [List.filterMap_cons_none hstep, sched_filter_not_mem rest hrest]
              simp
          | false =>
              by_cases hname : (lookupBuildingName buildings bid == "") = true
              · have hstep : schedStep current_time buildings schedules (bid, false)
                    = none := by
                  rw [schedStep_some current_time buildings schedules bid false sched
                    hsched, if_pos hct]
                  simp [send_axe_message, hname]
                rw [List.filterMap_cons_none hstep, sched_filter_not_mem rest hrest]
                simp [hname]
              · have hnf : (lookupBuildingName buildings bid == "") = false := by
                  simpa using hname
                have hstep : schedStep current_time buildings schedules (bid, false)
                    = some (bid,
                      "axe," ++ lookupBuildingName buildings bid ++ "_Is_Disarmed@") := by
                  rw [schedStep_some current_time buildings schedules bid false sched
                    hsched, if_pos hct]
                  simp only [send_axe_message, hnf, Bool.false_eq_true, ↓reduceIte,
                    Option.map_some', Option.some.injEq, Prod.mk.injEq, true_and,
                    String.append_assoc]
                  rfl
                rw [List.filterMap_cons_some hstep, List.filter_cons]
                simp only [beq_self_eq_true, ↓reduceIte]
                rw [sched_filter_not_mem rest hrest]
                simp [hct, hnf]
        · have hcf : (current_time == schedStartHHMM sched) = false := by
            simpa using hct
          have hstep : schedStep current_time buildings schedules (bid, armed)
              = none := by
            rw [schedStep_some current_time buildings schedules bid armed sched
              hsched, if_neg hct]
          rw [List.filterMap_cons_none hstep, sched_filter_not_mem rest hrest]
          simp [hcf]
      · have hxb : x.1 ≠ bid := by
          intro h
          have hh := (List.nodup_cons.mp hnd).1
          rw [h] at hh
          exact hh (by simpa using List.mem_map_of_mem Prod.fst hx)
        have ihr := ih (List.nodup_cons.mp hnd).2 hx
        unfold check_and_manage_scheduled_states at ihr ⊢
        cases hs : schedStep current_time buildings schedules x with
        | none =>
            rw [List.filterMap_cons_none hs]
            exact ihr
        | some out =>
            rw [List.filterMap_cons_some hs, List.filter_cons]
            have hfb : (out.1 == bid) = false := by
              simp [schedStep_fst_eq hs, hxb]
            simp only [hfb, Bool.false_eq_true, ↓reduceIte]
            exact ihr

/-! ## Admin self-protection (C9) -/

theorem actorIntact_exists {users : List AdminUser} {actor : String} :
    actorIntact users actor = true ↔
      ∃ u ∈ users, u.username = actor ∧ u.is_admin = true := by
  simp [actorIntact, List.any_eq_true, Bool.and_eq_true]

/-- With database-unique ids, any member with the looked-up id is the row
`fetchone()` returned. -/
theorem findUserById_unique {users : List AdminUser} {uid : Int}
    {row u : AdminUser}
    (hnd : (users.map AdminUser.id).Nodup)
    (hfind : findUserById users uid = some row)
    (hu : u ∈ users) (huid : u.id = uid) : u = row := by
  have hrow : row ∈ users := List.mem_of_find?_eq_some hfind
  have hrid : row.id = uid := by
    have h := List.find?_some hfind
    simpa using h
  exact List.inj_on_of_nodup_map hnd hu hrow (by rw [huid, hrid])

/-- Row-wise updates that keep ids keep the table's id column. -/
theorem map_preserves_ids (f : AdminUser → AdminUser)
    (hf : ∀ u, (f u).id = u.id) (users : List AdminUser) :
    (users.map f).map AdminUser.id = users.map AdminUser.id := by
  rw [List.map_map]
  exact List.map_congr_left (fun u _ => hf u)

/-- Row-wise updates that keep username and admin flag keep the acting
admin intact. -/
theorem actorIntact_map (f : AdminUser → AdminUser)
    (hf : ∀ u, (f u).username = u.username ∧ (f u).is_admin = u.is_admin)
    (users : List AdminUser) (actor : String)
    (h : actorIntact users actor = true) :
    actorIntact (users.map f) actor = true := by
  obtain ⟨w, hw, h1, h2⟩ := actorIntact_exists.mp h
  exact actorIntact_exists.mpr ⟨f w, List.mem_map_of_mem f hw,
    (hf w).1.trans h1, (hf w).2.trans h2⟩

theorem applyAdminFlag_ids (uid : Int) (req : UpdateUserRequest)
    (users : List AdminUser) :
    (applyAdminFlag uid req users).map AdminUser.id = users.map AdminUser.id := by
  unfold applyAdminFlag
  cases req.is_admin with
  | none => rfl
  | some b =>
      exact map_preserves_ids _ (fun u => by split <;> rfl) users

/-- The admin-flag update keeps the acting admin intact, because the
self-demotion guard already fired whenever the targeted row is the actor's
own and the request demotes. -/
theorem applyAdminFlag_intact (uid : Int) (req : UpdateUserRequest)
    (users : List AdminUser) (actor : String) (row : AdminUser)
    (hnd : (users.map AdminUser.id).Nodup)
    (hfind : findUserById users uid = some row)
    (hguard : ¬(row.username == actor && req.is_admin == some false) = true)
    (hint : actorIntact users actor = true) :
    actorIntact (applyAdminFlag uid req users) actor = true := by
  obtain ⟨w, hw, h1, h2⟩ := actorIntact_exists.mp hint
  unfold applyAdminFlag
  cases hia : req.is_admin with
  | none => exact hint
  | some b =>
      by_cases hwid : w.id = uid
      · have hwrow : w = row := findUserById_unique hnd hfind hw hwid
        have hb : b = true := by
          cases b
          · exfalso
            apply hguard
            rw [hia]
            have hru : row.username = actor := by rw [← hwrow]; exact h1
            simp [hru]
          · rfl
        refine actorIntact_exists.mpr ⟨{ w with is_admin := b }, ?_, h1, hb⟩
        have heq : (fun u : AdminUser =>
            if u.id == uid then { u with is_admin := b } else u) w
            = { w with is_admin := b } := by
          simp [hwid]
        exact heq ▸ List.mem_map_of_mem _ hw
      · refine actorIntact_exists.mpr ⟨w, ?_, h1, h2⟩
        have heq : (fun u : AdminUser =>
            if u.id == uid then { u with is_admin := b } else u) w = w := by
          simp [hwid]
        exact heq ▸ List.mem_map_of_mem _ hw

/-- `update_user` keeps the id column unchanged and the acting admin intact. -/
theorem update_user_preserves (hashp : String → String) (users : List AdminUser)
    (actor : String) (uid : Int) (req : UpdateUserRequest)
    (hnd : (users.map AdminUser.id).Nodup)
    (hint : actorIntact users actor = true) :
    (update_user hashp users actor uid req).2.map AdminUser.id =
      users.map AdminUser.id ∧
    actorIntact (update_user hashp users actor uid req).2 actor = true := by
  cases hfind : findUserById users uid with
  | none =>
      simp only [update_user, hfind]
      exact ⟨trivial, hint⟩
  | some row =>
      have hflag_ids := applyAdminFlag_ids uid req users
      by_cases hguard : (row.username == actor && req.is_admin == some false) = true
      · simp only [update_user, hfind, hguard, ↓reduceIte]
        exact ⟨trivial, hint⟩
      · have hflag_int := applyAdminFlag_intact uid req users actor row hnd hfind
          hguard hint
        have hgf : (row.username == actor && req.is_admin == some false) = false := by
          simpa using hguard
        cases hpw : req.new_password with
        | none =>
            simp only [update_user, hfind, hgf, hpw, Bool.false_eq_true, ↓reduceIte]
            exact ⟨hflag_ids, hflag_int⟩
        | some p =>
            by_cases hp0 : (p == "") = true
            · simp only [update_user, hfind, hgf, hpw, hp0, Bool.false_eq_true,
                ↓reduceIte]
              exact ⟨hflag_ids, hflag_int⟩
            · have hp0f : (p == "") = false := by simpa using hp0
              by_cases hlen : p.length < 6
              · simp only [update_user, hfind, hgf, hpw, hp0f, hlen,
                  Bool.false_eq_true, ↓reduceIte, if_true]
                exact ⟨trivial, hint⟩
              · simp only [update_user, hfind, hgf, hpw, hp0f, hlen,
                  Bool.false_eq_true, ↓reduceIte, if_false]
                constructor
                · rw [map_preserves_ids _ (fun u => by split <;> rfl) _]
                  exact hflag_ids
                · exact actorIntact_map _
                    (fun u => by split <;> exact ⟨rfl, rfl⟩) _ _ hflag_int

/-- `delete_user` keeps the id column duplicate-free and the acting admin
intact: the self-deletion guard fires on the actor's own row, and any other
row's removal cannot touch the actor's. -/
theorem delete_user_preserves (users : List AdminUser) (actor : String) (uid : Int)
    (hnd : (users.map AdminUser.id).Nodup)
    (hint : actorIntact users actor = true) :
    ((delete_user users actor uid).2.map AdminUser.id).Nodup ∧
    actorIntact (delete_user users actor uid).2 actor = true := by
  cases hfind : findUserById users uid with
  | none =>
      simp only [delete_user, hfind]
      exact ⟨hnd, hint⟩
  | some row =>
      by_cases hguard : (row.username == actor) = true
      · simp only [delete_user, hfind, hguard, ↓reduceIte]
        exact ⟨hnd, hint⟩
      · have hgf : (row.username == actor) = false := by simpa using hguard
        simp only [delete_user, hfind, hgf, Bool.false_eq_true, ↓reduceIte]
        constructor
        · exact List.Nodup.sublist
            (List.Sublist.map AdminUser.id (List.filter_sublist users)) hnd
        · obtain ⟨w, hw, h1, h2⟩ := actorIntact_exists.mp hint
          have hwid : w.id ≠ uid := by
            intro h
            have hwrow : w = row := findUserById_unique hnd hfind hw h
            apply hguard
            rw [← hwrow]
            simp [h1]
          refine actorIntact_exists.mpr ⟨w, ?_, h1, h2⟩
          refine List.mem_filter.mpr ⟨hw, ?_⟩
          simp [hwid]

theorem le_foldr_max (l : List Int) (i : Int) (h : i ∈ l) : i ≤ l.foldr max 0 := by
  induction l with
  | nil => cases h
  | cons a as ih =>
      rcases List.mem_cons.mp h with rfl | h
      · exact le_max_left _ _
      · exact le_trans (ih h) (le_max_right _ _)

/-- The autoincrement id is fresh. -/
theorem freshUserId_not_mem (users : List AdminUser) :
    freshUserId users ∉ users.map AdminUser.id := by
  intro h
  have hle := le_foldr_max (users.map AdminUser.id) (freshUserId users) h
  unfold freshUserId at hle
  omega

/-- `create_user` keeps the id column duplicate-free and the acting admin
intact. -/
theorem create_user_preserves (hashp : String → String) (users : List AdminUser)
    (actor : String) (req : CreateUserRequest)
    (hnd : (users.map AdminUser.id).Nodup)
    (hint : actorIntact users actor = true) :
    ((create_user hashp users req).2.map AdminUser.id).Nodup ∧
    actorIntact (create_user hashp users req).2 actor = true := by
  unfold create_user
  by_cases h3 : req.username.length < 3
  · rw [if_pos h3]
    exact ⟨hnd, hint⟩
  · rw [if_neg h3]
    by_cases h6 : req.password.length < 6
    · rw [if_pos h6]
      exact ⟨hnd, hint⟩
    · rw [if_neg h6]
      by_cases hdup : (users.any (fun u => u.username == req.username)) = true
      · rw [if_pos hdup]
        exact ⟨hnd, hint⟩
      · rw [if_neg hdup]
        constructor
        · rw [List.map_append]
          refine List.nodup_append.mpr ⟨hnd, by simp, ?_⟩
          intro i hi hi2
          have : i = freshUserId users := by simpa using hi2
          exact freshUserId_not_mem users (this ▸ hi)
        · obtain ⟨w, hw, h1, h2⟩ := actorIntact_exists.mp hint
          exact actorIntact_exists.mpr ⟨w, List.mem_append_left _ hw, h1, h2⟩

/-- `change_password` keeps the id column unchanged and the acting admin
intact. -/
theorem change_password_preserves (hashp : String → String)
    (verify : String → String → Bool) (users : List AdminUser) (actor : String)
    (c n : String)
    (hint : actorIntact users actor = true) :
    (change_password hashp verify users actor c n).2.map AdminUser.id =
      users.map AdminUser.id ∧
    actorIntact (change_password hashp verify users actor c n).2 actor = true := by
  cases hfind : users.find? (fun u => u.username == actor) with
  | none =>
      simp only [change_password, hfind]
      exact ⟨trivial, hint⟩
  | some row =>
      by_cases hv : (!(verify c row.password_hash)) = true
      · simp only [change_password, hfind, hv, ↓reduceIte]
        exact ⟨trivial, hint⟩
      · have hvf : (!(verify c row.password_hash)) = false := by simpa using hv
        simp only [change_password, hfind, hvf, Bool.false_eq_true, ↓reduceIte]
        exact ⟨map_preserves_ids _ (fun u => by split <;> rfl) _,
          actorIntact_map _ (fun u => by split <;> exact ⟨rfl, rfl⟩)
            _ _ hint⟩

/-- One admin-API operation preserves the table invariant. -/
theorem runAdminOp_preserves (hashp : String → String)
    (verify : String → String → Bool) (actor : String) (users : List AdminUser)
    (op : AdminOp)
    (hnd : (users.map AdminUser.id).Nodup)
    (hint : actorIntact users actor = true) :
    ((runAdminOp hashp verify actor users op).map AdminUser.id).Nodup ∧
    actorIntact (runAdminOp hashp verify actor users op) actor = true := by
  cases op with
  | updateU uid req =>
      by_cases hadm : isActingAdmin users actor = true
      · simp only [runAdminOp, hadm, ↓reduceIte]
        obtain ⟨hids, hint2⟩ := update_user_preserves hashp users actor uid req hnd hint
        exact ⟨by rw [hids]; exact hnd, hint2⟩
      · have hadmf : isActingAdmin users actor = false := by simpa using hadm
        simp only [runAdminOp, hadmf, Bool.false_eq_true, ↓reduceIte]
        exact ⟨hnd, hint⟩
  | deleteU uid =>
      by_cases hadm : isActingAdmin users actor = true
      · simp only [runAdminOp, hadm, ↓reduceIte]
        exact delete_user_preserves users actor uid hnd hint
      · have hadmf : isActingAdmin users actor = false := by simpa using hadm
        simp only [runAdminOp, hadmf, Bool.false_eq_true, ↓reduceIte]
        exact ⟨hnd, hint⟩
  | createU req =>
      by_cases hadm : isActingAdmin users actor = true
      · simp only [runAdminOp, hadm, ↓reduceIte]
        exact create_user_preserves hashp users actor req hnd hint
      · have hadmf : isActingAdmin users actor = false := by simpa using hadm
        simp only [runAdminOp, hadmf, Bool.false_eq_true, ↓reduceIte]
        exact ⟨hnd, hint⟩
  | changePw c n =>
      simp only [runAdminOp]
      obtain ⟨hids, hint2⟩ := change_password_preserves hashp verify users actor c n hint
      exact ⟨by rw [hids]; exact hnd, hint2⟩

/-- Any sequence of admin-API operations preserves the table invariant. -/
theorem runAdminOps_preserves (hashp : String → String)
    (verify : String → String → Bool) (actor : String) (users : List AdminUser)
    (ops : List AdminOp)
    (hnd : (users.map AdminUser.id).Nodup)
    (hint : actorIntact users actor = true) :
    ((runAdminOps hashp verify actor users ops).map AdminUser.id).Nodup ∧
    actorIntact (runAdminOps hashp verify actor users ops) actor = true := by
  induction ops generalizing users with
  | nil => exact ⟨hnd, hint⟩
  | cons op rest ih =>
      obtain ⟨h1, h2⟩ := runAdminOp_preserves hashp verify actor users op hnd hint
      exact ih _ h1 h2

/-- C9: with unique row ids and the acting admin present and flagged,
updating the actor's own row with is_admin = false answers 400 and changes
nothing, deleting the actor's own row answers 400 and changes nothing, and
no sequence of admin-API operations by that actor removes their admin flag
or their row. -/
theorem admin_self_protection
    (hashp : String → String) (verify : String → String → Bool)
    (users : List AdminUser) (actor : String) (uidU uidD : Int)
    (reqU : UpdateUserRequest) (ops : List AdminOp) (rowU rowD : AdminUser)
    (hrowU : findUserById users uidU = some rowU)
    (hnameU : rowU.username = actor)
    (hdemote : reqU.is_admin = some false)
    (hrowD : findUserById users uidD = some rowD)
    (hnameD : rowD.username = actor)
    (hnd : (users.map AdminUser.id).Nodup)
    (hint : actorIntact users actor = true) :
    update_user hashp users actor uidU reqU = (400, users) ∧
    delete_user users actor uidD = (400, users) ∧
    actorIntact (runAdminOps hashp verify actor users ops) actor = true := by
  refine ⟨?_, ?_,
    (runAdminOps_preserves hashp verify actor users ops hnd hint).2⟩
  · simp [update_user, hrowU, hnameU, hdemote]
  · simp [delete_user, hrowD, hnameD]

/-- Closed instance of `admin_self_protection`: the acting admin "root"
cannot demote or delete their own row 1, and a sequence that edits, deletes
and creates other users leaves "root" an admin. -/
theorem admin_self_protection_witness :
    update_user (fun s => s)
        [⟨1, "root", "h", true⟩, ⟨2, "bob", "h2", false⟩] "root" 1
        ⟨some false, none⟩ =
      (400, [⟨1, "root", "h", true⟩, ⟨2, "bob", "h2", false⟩]) ∧
    delete_user [⟨1, "root", "h", true⟩, ⟨2, "bob", "h2", false⟩] "root" 1 =
      (400, [⟨1, "root", "h", true⟩, ⟨2, "bob", "h2", false⟩]) ∧
    actorIntact
      (runAdminOps (fun s => s) (fun _ _ => true) "root"
        [⟨1, "root", "h", true⟩, ⟨2, "bob", "h2", false⟩]
        [.updateU 2 ⟨some true, some "longenough"⟩, .deleteU 2,
         .createU ⟨"carol", "secret1", false⟩, .changePw "pw" "newpass1"])
      "root" = true :=
  admin_self_protection (fun s => s) (fun _ _ => true)
    [⟨1, "root", "h", true⟩, ⟨2, "bob", "h2", false⟩] "root" 1 1
    ⟨some false, none⟩
    [.updateU 2 ⟨some true, some "longenough"⟩, .deleteU 2,
     .createU ⟨"carol", "secret1", false⟩, .changePw "pw" "newpass1"]
    ⟨1, "root", "h", true⟩ ⟨1, "root", "h", true⟩
    rfl rfl rfl rfl rfl (by decide) (by decide)

/-- Closed instance of `scheduled_alert_exactly_when`: a disarmed building
with a non-empty name at its scheduled minute gets exactly the one alert. -/
theorem scheduled_alert_exactly_when_witness :
    (check_and_manage_scheduled_states "20:00" [(1, false), (2, true)]
        [(1, "Main")] (fun _ => some ⟨some "20:00:00"⟩)).filter
      (fun p => p.1 == (1 : Int)) =
      (if ("20:00" == schedStartHHMM ⟨some "20:00:00"⟩) && !false
          && !(lookupBuildingName [(1, "Main")] 1 == "") then
        [((1 : Int), "axe," ++ lookupBuildingName [(1, "Main")] 1 ++ "_Is_Disarmed@")]
      else []) :=
  scheduled_alert_exactly_when "20:00" [(1, false), (2, true)] [(1, "Main")]
    (fun _ => some ⟨some "20:00:00"⟩) 1 false ⟨some "20:00:00"⟩
    (by decide) (by decide) rfl

end AmazonDvc
